import Mathlib

/-
Verification development for the HeavyBall interactive playground
(src/interactive/playground.py).  The file shallowly embeds the data
model and the operations of the playground: the declarative component
catalog OPTIMIZER_BLOCKS, the preset RECIPES, the PROBLEMS table, the
parameter-merging adapter build_optimizer_from_pipeline, the training
loop run_optimization, the helpers find_convergence, remove_block and
get_component_info, and the visualization dispatch create_visualization.

Modelling conventions:
  * Python floats are embedded as exact rationals (the code only copies
    these values around; the single arithmetic operation `10 ** lr` is
    kept as an uninterpreted constructor `Val.pow10`).
  * Python dictionaries are embedded as functions `String → Option Val`
    (exactly Python's lookup semantics); dict literals / param dicts of
    the catalog are association lists with distinct keys.
  * the external chainable-optimizer library (heavyball.chainable) is
    not owned by the repository; its functions are represented by their
    (distinct) qualified names, and the behaviour of `optimizer.step` is
    a parameter of the embedded training loop.
  * Python exceptions (KeyError on a missing PROBLEMS key, IndexError on
    `losses[-1]` of an empty list, TypeError on subscripting a
    non-subscriptable value) are embedded with Option / Except results.
-/

/-- Values stored in the playground's parameter dictionaries: floats and
ints (as exact rationals), 2-tuples, booleans, strings, Python `None`,
and the float `10 ** v` kept uninterpreted. -/
inductive Val where
  | num : ℚ → Val
  | pair : Val → Val → Val
  | bool : Bool → Val
  | str : String → Val
  | null : Val
  | pow10 : Val → Val
deriving DecidableEq

/-- Python `v[1]`, as used on `opt_params["betas"][1]`: second component
of a 2-tuple, second character of a string, and a TypeError / IndexError
(`none`) otherwise. -/
def Val.idx1 : Val → Option Val
  | .pair _ b => some b
  | .str s => (s.toList.get? 1).map (fun c => Val.str (String.mk [c]))
  | _ => none

/-- A Python dictionary with string keys, embedded by its lookup
function. -/
def Dict : Type := String → Option Val

/-- The empty dictionary. -/
def Dict.empty : Dict := fun _ => none

/-- Python `d[k] = v`. -/
def Dict.insert (d : Dict) (k : String) (v : Val) : Dict :=
  fun q => if q = k then some v else d q

/-- A dictionary literal given by an association list (later entries
win, as in Python). -/
def Dict.ofList (l : List (String × Val)) : Dict :=
  l.foldl (fun d kv => d.insert kv.1 kv.2) Dict.empty

/-- Lookup in an association list (the embedded catalog `params`
dicts), first match wins; catalog keys are distinct. -/
def lookupP (k : String) (ps : List (String × Val)) : Option Val :=
  (ps.find? (fun kv => kv.1 == k)).map (fun kv => kv.2)

/-- One entry of the component catalog: the six metadata fields each
catalog dict carries in the source.  `func` holds the qualified name of
the external heavyball.chainable callable, `none` embedding Python
`None`. -/
structure Component where
  id : String
  name : String
  icon : String
  description : String
  func : Option String
  params : List (String × Val)
deriving DecidableEq

/-- One category of OPTIMIZER_BLOCKS: its dict key, display name, color
and component list. -/
structure Category where
  key : String
  name : String
  color : String
  components : List Component
deriving DecidableEq

/-- The OPTIMIZER_BLOCKS catalog, in source order of the Python dict. -/
def OPTIMIZER_BLOCKS : List Category := [
  { key := "gradient", name := "🎯 Gradient Input", color := "#9c27b0",
    components := [
      { id := "gradient_input", name := "Raw Gradient", icon := "∇",
        description := "Start of the pipeline - raw gradients from backprop",
        func := none, params := [] }] },
  { key := "momentum", name := "⚡ Momentum", color := "#2196f3",
    components := [
      { id := "heavyball", name := "Heavy Ball", icon := "🏐",
        description := "Classic momentum: v = βv - g",
        func := some "C.heavyball_momentum", params := [("beta", Val.num 0.9)] },
      { id := "nesterov", name := "Nesterov", icon := "🚀",
        description := "Look-ahead momentum",
        func := some "C.nesterov_momentum", params := [("beta", Val.num 0.9)] },
      { id := "nesterov_ema", name := "Nesterov EMA", icon := "📈",
        description := "Exponential moving average variant",
        func := some "C.nesterov_ema", params := [("beta", Val.num 0.9)] },
      { id := "basic_ema", name := "Basic EMA", icon := "📉",
        description := "Simple exponential moving average",
        func := some "C.exp_avg",
        params := [("betas", Val.pair (Val.num 0.9) (Val.num 0.999))] }] },
  { key := "scaling", name := "📊 Adaptive Scaling", color := "#ff5722",
    components := [
      { id := "adam_scale", name := "Adam Scaling", icon := "👑",
        description := "Adaptive per-parameter learning rates",
        func := some "C.scale_by_adam",
        params := [("betas", Val.pair (Val.num 0.9) (Val.num 0.999)),
                   ("eps", Val.num 1e-8)] },
      { id := "rmsprop_scale", name := "RMSprop Scaling", icon := "📉",
        description := "Root mean square normalization",
        func := some "C.scale_by_exp_avg_sq",
        params := [("beta2", Val.num 0.999), ("eps", Val.num 1e-8)] },
      { id := "adagrad_scale", name := "AdaGrad Scaling", icon := "📐",
        description := "Accumulate all past gradients",
        func := some "C.scale_by_exp_avg_sq",
        params := [("beta2", Val.num 1.0), ("eps", Val.num 1e-8)] }] },
  { key := "regularization", name := "⚖️ Regularization", color := "#009688",
    components := [
      { id := "weight_decay", name := "Weight Decay", icon := "🪶",
        description := "L2 regularization (AdamW style)",
        func := some "C.weight_decay_to_ema",
        params := [("weight_decay_to_ema", Val.num 0.01),
                   ("ema_beta", Val.num 0.999)] },
      { id := "weight_decay_init", name := "Decay to Init", icon := "🎯",
        description := "Pull weights toward initialization",
        func := some "C.weight_decay_to_init",
        params := [("weight_decay_to_init", Val.num 0.01)] },
      { id := "l1_weight_decay", name := "L1 Weight Decay", icon := "⚡",
        description := "L1 regularization to EMA",
        func := some "C.l1_weight_decay_to_ema",
        params := [("weight_decay_to_ema", Val.num 0.01),
                   ("ema_beta", Val.num 0.999)] }] },
  { key := "normalization", name := "🔧 Gradient Processing", color := "#795548",
    components := [
      { id := "grad_clip", name := "Gradient Clipping", icon := "✂️",
        description := "Clip gradient norm",
        func := some "functools:C.global_clip with clip_fn=heavyball.utils.l2_clip_",
        params := [("max_norm", Val.num 1.0)] },
      { id := "sign", name := "Sign SGD", icon := "±",
        description := "Use only gradient signs",
        func := some "C.sign", params := [("graft", Val.bool true)] },
      { id := "orthogonalize", name := "Orthogonalize", icon := "⊥",
        description := "Orthogonalize gradient to parameter",
        func := some "C.orthogonalize_grad_to_param",
        params := [("eps", Val.num 1e-8)] },
      { id := "orthogonalize_update", name := "Orthogonalize Update", icon := "⊗",
        description := "Orthogonalize the update itself",
        func := some "C.orthogonalize_update", params := [] }] },
  { key := "advanced_scaling", name := "🚀 Advanced Optimizers", color := "#ff5722",
    components := [
      { id := "laprop", name := "Laprop", icon := "🌊",
        description := "Layerwise adaptive propagation",
        func := some "C.scale_by_laprop",
        params := [("betas", Val.pair (Val.num 0.9) (Val.num 0.999)),
                   ("eps", Val.num 1e-8)] },
      { id := "adopt", name := "ADOPT", icon := "🎯",
        description := "Adaptive gradient methods",
        func := some "C.scale_by_adopt",
        params := [("betas", Val.pair (Val.num 0.9) (Val.num 0.9999)),
                   ("eps", Val.num 1e-12)] }] },
  { key := "preconditioning", name := "🔮 Preconditioning", color := "#9c27b0",
    components := [
      { id := "soap", name := "SOAP", icon := "🧼",
        description := "Shampoo-based preconditioning",
        func := some "functools:C.scale_by_soap with inner=adam",
        params := [("shampoo_beta", Val.num 0.99),
                   ("max_precond_dim", Val.num 10000),
                   ("precondition_1d", Val.bool false),
                   ("is_preconditioning", Val.bool true),
                   ("betas", Val.pair (Val.num 0.9) (Val.num 0.999)),
                   ("eps", Val.num 1e-8)] },
      { id := "psgd", name := "PSGD", icon := "🎲",
        description := "Preconditioned SGD",
        func := some "functools:C.scale_by_psgd with cached=False",
        params := [("precond_lr", Val.num 0.1),
                   ("max_size_triangular", Val.num 1024),
                   ("precondition_frequency", Val.num 10),
                   ("adaptive", Val.bool false),
                   ("store_triu_as_line", Val.bool true),
                   ("q_dtype", Val.str "float32"),
                   ("inverse_free", Val.bool false),
                   ("precond_init_scale", Val.num 1.0),
                   ("precond_init_scale_scale", Val.num 0.0),
                   ("precond_init_scale_power", Val.num 1.0),
                   ("min_ndim_triangular", Val.num 2),
                   ("memory_save_mode", Val.null),
                   ("dampening", Val.num 1.0),
                   ("is_preconditioning", Val.bool true),
                   ("betas", Val.pair (Val.num 0.9) (Val.num 0.999)),
                   ("eps", Val.num 1e-8),
                   ("ortho_method", Val.str "qr"),
                   ("lower_bound_beta", Val.num 0.999),
                   ("precond_update_power_iterations", Val.num 1)] },
      { id := "psgd_lra", name := "PSGD LRA", icon := "📐",
        description := "Low-rank approximation PSGD",
        func := some "C.scale_by_psgd_lra",
        params := [("precond_lr", Val.num 0.1),
                   ("rank", Val.num 4),
                   ("param_count", Val.num 10000),
                   ("precondition_frequency", Val.num 10),
                   ("precond_init_scale", Val.num 1.0),
                   ("precond_init_scale_scale", Val.num 0.0),
                   ("precond_init_scale_power", Val.num 1.0),
                   ("q_dtype", Val.str "float32"),
                   ("is_preconditioning", Val.bool true),
                   ("eps", Val.num 1e-8),
                   ("betas", Val.pair (Val.num 0.9) (Val.num 0.999))] },
      { id := "delayed_psgd", name := "Delayed PSGD", icon := "⏱️",
        description := "PSGD with delayed preconditioner updates",
        func := some "functools:C.scale_by_delayed_psgd with cached=False",
        params := [("precond_lr", Val.num 0.1),
                   ("max_size_triangular", Val.num 1024),
                   ("precondition_frequency", Val.num 10),
                   ("adaptive", Val.bool false),
                   ("store_triu_as_line", Val.bool true),
                   ("q_dtype", Val.str "float32"),
                   ("inverse_free", Val.bool false),
                   ("precond_init_scale", Val.num 1.0),
                   ("precond_init_scale_scale", Val.num 0.0),
                   ("precond_init_scale_power", Val.num 1.0),
                   ("min_ndim_triangular", Val.num 2),
                   ("memory_save_mode", Val.null),
                   ("dampening", Val.num 1.0),
                   ("is_preconditioning", Val.bool true),
                   ("betas", Val.pair (Val.num 0.9) (Val.num 0.999)),
                   ("eps", Val.num 1e-8),
                   ("ortho_method", Val.str "qr"),
                   ("lower_bound_beta", Val.num 0.999),
                   ("precond_update_power_iterations", Val.num 1)] },
      { id := "delayed_psgd_lra", name := "Delayed PSGD LRA", icon := "⏰",
        description := "Delayed low-rank PSGD",
        func := some "C.scale_by_delayed_psgd_lra",
        params := [("precond_lr", Val.num 0.1),
                   ("rank", Val.num 4),
                   ("param_count", Val.num 10000),
                   ("precondition_frequency", Val.num 10),
                   ("precond_init_scale", Val.num 1.0),
                   ("precond_init_scale_scale", Val.num 0.0),
                   ("precond_init_scale_power", Val.num 1.0),
                   ("q_dtype", Val.str "float32"),
                   ("is_preconditioning", Val.bool true),
                   ("eps", Val.num 1e-8),
                   ("betas", Val.pair (Val.num 0.9) (Val.num 0.999))] }] },
  { key := "adaptive_lr", name := "🎛️ Adaptive Learning Rate", color := "#009688",
    components := [
      { id := "d_adapt", name := "D-Adaptation", icon := "📈",
        description := "Automatic learning rate adaptation",
        func := some "C.scale_by_d_adaptation",
        params := [("initial_d", Val.num 1.0)] },
      { id := "lr_adapt", name := "LR Adaptation", icon := "🔄",
        description := "Learning rate adaptation",
        func := some "C.scale_by_lr_adaptation",
        params := [("initial_d", Val.num 1.0), ("lr_lr", Val.num 0.1)] },
      { id := "pointwise_lr_adapt", name := "Pointwise LR", icon := "🎚️",
        description := "Per-parameter learning rate",
        func := some "C.scale_by_pointwise_lr_adaptation",
        params := [("initial_d", Val.num 1.0), ("lr_lr", Val.num 0.1)] }] },
  { key := "special", name := "✨ Special Methods", color := "#4caf50",
    components := [
      { id := "schedule_free", name := "Schedule-Free", icon := "🗓️",
        description := "No learning rate schedule needed",
        func := some "C.update_by_schedule_free",
        params := [("r", Val.num 0.0), ("weight_lr_power", Val.num 2.0)] },
      { id := "msam", name := "MSAM", icon := "🏔️",
        description := "Momentum SAM optimizer",
        func := some "C.update_by_msam",
        params := [("sam_step_size", Val.num 0.05)] },
      { id := "mup", name := "μP Approx", icon := "📏",
        description := "Maximal update parametrization",
        func := some "C.mup_approx", params := [] },
      { id := "palm_beta2", name := "PALM β₂", icon := "🌴",
        description := "Dynamic β₂ scheduling for PALM",
        func := some "C.palm_beta2",
        params := [("beta2_scale", Val.num 0.8)] },
      { id := "identity", name := "Identity", icon := "🔄",
        description := "Pass-through (no operation)",
        func := some "C.identity", params := [] }] }]

/-- The inner search of get_component_info: walk the categories in
order, return the first component whose id matches together with its
category's color, else `(none, "#757575")`. -/
def findComp (cid : String) : List Category → Option Component × String
  | [] => (none, "#757575")
  | cat :: rest =>
    match cat.components.find? (fun c => c.id == cid) with
    | some c => (some c, cat.color)
    | none => findComp cid rest

/-- Embedding of `get_component_info`. -/
def get_component_info (cid : String) : Option Component × String :=
  findComp cid OPTIMIZER_BLOCKS

/-- Embedding of the RECIPES dict of preset pipelines. -/
def RECIPES : List (String × List String) := [
  ("SGD", ["gradient_input"]),
  ("SGD + Momentum", ["gradient_input", "heavyball"]),
  ("Adam", ["gradient_input", "adam_scale"]),
  ("AdamW", ["gradient_input", "adam_scale", "weight_decay"]),
  ("RMSprop", ["gradient_input", "rmsprop_scale"]),
  ("Nesterov SGD", ["gradient_input", "nesterov"]),
  ("SOAP", ["gradient_input", "soap"]),
  ("Laprop", ["gradient_input", "laprop"]),
  ("ADOPT", ["gradient_input", "adopt"]),
  ("Sign SGD", ["gradient_input", "sign"]),
  ("AdamW + Clipping", ["gradient_input", "grad_clip", "adam_scale", "weight_decay"]),
  ("D-Adapted Adam", ["gradient_input", "adam_scale", "d_adapt"]),
  ("PSGD", ["gradient_input", "psgd"]),
  ("Schedule-Free AdamW", ["gradient_input", "adam_scale", "weight_decay", "schedule_free"]),
  ("EMA SGD", ["gradient_input", "basic_ema"]),
  ("Orthogonal Adam", ["gradient_input", "orthogonalize_update", "adam_scale"]),
  ("PALM", ["gradient_input", "palm_beta2", "adam_scale"]),
  ("Delayed PSGD", ["gradient_input", "delayed_psgd"]),
  ("μP Adam", ["gradient_input", "mup", "adam_scale"])]

/-- A problem of the PROBLEMS table, by the only datum the verified
operations inspect: its parameter-space dimension.  The loss surfaces,
bounds and the (RNG-dependent) initializers live in external torch and
numpy calls; initial parameters enter the embedded training loop as an
explicit argument. -/
structure Problem where
  dim : ℕ
deriving DecidableEq

/-- The PROBLEMS table.  The three MLP problems have
dim = (4*1+4) + (4*4+4) + (1*4+1) = 33, the parameter count of the
declared Linear(1,4)/Linear(4,4)/Linear(4,1) stack (the "(13D)" of
their display keys is only a label). -/
def PROBLEMS : List (String × Problem) := [
  ("Simple Bowl (2D)", ⟨2⟩),
  ("Ravine (2D)", ⟨2⟩),
  ("Rosenbrock (2D)", ⟨2⟩),
  ("Himmelblau (2D)", ⟨2⟩),
  ("Beale (2D)", ⟨2⟩),
  ("MLP abs(x) (13D)", ⟨33⟩),
  ("MLP sin(x) (13D)", ⟨33⟩),
  ("MLP exp(x) (13D)", ⟨33⟩),
  ("Quadratic Bowl (10D)", ⟨10⟩),
  ("Styblinski-Tang (4D)", ⟨4⟩),
  ("Styblinski-Tang (8D)", ⟨8⟩)]

/-- Python `PROBLEMS[name]`, `none` embedding the KeyError case. -/
def problemsLookup (name : String) : Option Problem :=
  (PROBLEMS.find? (fun p => p.1 == name)).map (fun p => p.2)

/-- The literal part of the initial `opt_params` dict of
build_optimizer_from_pipeline: lr=0.001, step=1, caution=False,
weight_decay=0.0. -/
def baseDefaults : Dict :=
  Dict.ofList [("lr", Val.num 0.001), ("step", Val.num 1),
               ("caution", Val.bool false), ("weight_decay", Val.num 0.0)]

/-- The initial `opt_params` value: the base-defaults literal updated by
the splatted user kwargs, so a user-supplied key shadows the literal. -/
def initParams (kwargs : Dict) : Dict :=
  fun k => match kwargs k with
  | some v => some v
  | none => baseDefaults k

/-- The special beta handling of build_optimizer_from_pipeline: when the
component's params contain "beta" but not "betas", pop "beta" and write
`opt_params["betas"] = (beta, opt_params["betas"][1])` (or
`(beta, 0.999)` when "betas" is absent).  Returns the remaining
`params_to_add` and the updated dict; `none` embeds the TypeError that
Python raises when the current "betas" value cannot be subscripted. -/
def betaSpecial (ps : List (String × Val)) (d : Dict) :
    Option (List (String × Val) × Dict) :=
  match lookupP "beta" ps, lookupP "betas" ps with
  | some beta, none =>
    match d "betas" with
    | none => some (ps.filter (fun kv => kv.1 != "beta"),
                    d.insert "betas" (Val.pair beta (Val.num 0.999)))
    | some v =>
      match v.idx1 with
      | none => none
      | some b2 => some (ps.filter (fun kv => kv.1 != "beta"),
                         d.insert "betas" (Val.pair beta b2))
  | _, _ => some (ps, d)

/-- The component-default loop: each remaining `params_to_add` entry is
written only when its key is not a user-supplied kwarg. -/
def addDefaults (kwargs : Dict) (ps : List (String × Val)) (d : Dict) : Dict :=
  ps.foldl (fun acc kv => if (kwargs kv.1).isSome then acc else acc.insert kv.1 kv.2) d

/-- The pipeline loop of build_optimizer_from_pipeline: skip the
"gradient_input" id, skip ids with no catalog entry, skip components
whose func is None; otherwise append the func and merge the component's
params through the beta special case and the default loop. -/
def buildAux (kwargs : Dict) : List String → List String → Dict →
    Option (List String × Dict)
  | [], fns, d => some (fns, d)
  | cid :: rest, fns, d =>
    if cid = "gradient_input" then buildAux kwargs rest fns d
    else
      match (get_component_info cid).1 with
      | none => buildAux kwargs rest fns d
      | some comp =>
        match comp.func with
        | none => buildAux kwargs rest fns d
        | some f =>
          match betaSpecial comp.params d with
          | none => none
          | some pd => buildAux kwargs rest (fns ++ [f]) (addDefaults kwargs pd.1 pd.2)

/-- The external C.BaseOpt constructor call, recorded by the two
arguments the repository computes: the merged options dict and the list
of chainable transform functions (the `params` argument is the torch
parameter list, owned by the caller). -/
structure BaseOpt where
  opt_params : Dict
  fns : List String

/-- Embedding of `build_optimizer_from_pipeline` (the returned value
records the C.BaseOpt call; `none` embeds an uncaught TypeError from the
beta special case). -/
def build_optimizer_from_pipeline (pipeline : List String) (kwargs : Dict) :
    Option BaseOpt :=
  match buildAux kwargs pipeline [] (initParams kwargs) with
  | none => none
  | some fd => if fd.1.isEmpty then some ⟨fd.2, ["C.identity"]⟩ else some ⟨fd.2, fd.1⟩

/-- The convergence test of find_convergence at index i:
`abs(losses[i] - losses[i - 5]) < threshold`. -/
def convTest (losses : List ℚ) (threshold : ℚ) (i : ℕ) : Bool :=
  |losses.getD i 0 - losses.getD (i - 5) 0| < threshold

/-- Embedding of `find_convergence` (the source's default threshold is
1e-6): below ten entries return the length, otherwise scan
`range(10, len(losses))` and return the first index passing the
convergence test, else the length. -/
def find_convergence (losses : List ℚ) (threshold : ℚ) : ℕ :=
  if losses.length < 10 then losses.length
  else
    match (List.range' 10 (losses.length - 10)).find? (convTest losses threshold) with
    | some i => i
    | none => losses.length

/-- Embedding of `remove_block`.  The index is a Python int; the guard
`0 <= index < len(pipeline) and pipeline[index] != "gradient_input"`
keeps the pipeline unchanged when it fails, otherwise a copy without
the indexed element is returned. -/
def remove_block (pipeline : List String) (index : ℤ) : List String :=
  if 0 ≤ index ∧ index < pipeline.length ∧
      pipeline.getD index.toNat "" ≠ "gradient_input" then
    pipeline.eraseIdx index.toNat
  else pipeline

/-- Uncaught Python exceptions of run_optimization: the KeyError of
`PROBLEMS[problem_name]`, the IndexError of `losses[-1]` on an empty
list, and a TypeError propagated from build_optimizer_from_pipeline. -/
inductive RunError where
  | keyError
  | indexError
  | typeError
deriving DecidableEq

/-- The metrics dict returned by run_optimization, parametric in the
type of parameter snapshots. -/
structure Metrics (X : Type) where
  trajectory : List X
  losses : List ℚ
  final_loss : ℚ
  steps_to_converge : ℕ
deriving DecidableEq

/-- The training loop of run_optimization: per iteration, append the
current parameters to the trajectory, take one optimizer step (an
external call, given by `stepF` together with its hidden state), and
append the returned loss. -/
def optLoop {X S : Type} (stepF : X → S → X × S × ℚ) : ℕ → X → S → List X × List ℚ
  | 0, _, _ => ([], [])
  | Nat.succ n, x, s =>
    let r := stepF x s
    let rest := optLoop stepF n r.1 r.2.1
    (x :: rest.1, r.2.2 :: rest.2)

/-- The kwargs mutation `kwargs["lr"] = 10 ** kwargs.get("lr", -2)`
performed by run_optimization before building the optimizer. -/
def lrAdjust (kwargs : Dict) : Dict :=
  kwargs.insert "lr" (Val.pow10 ((kwargs "lr").getD (Val.num (-2))))

/-- Embedding of `run_optimization`.  The problem's (RNG-dependent)
initial parameters enter as `init`, and the external optimizer's
step-with-closure is the parameter `stepF`.  The gradients list and the
plotly figure built by create_visualization are omitted from the
result: the figure construction raises no exception for a valid problem
name (both visualization branches guard their trajectory accesses), so
the uncaught failures of the source are exactly the ones modelled. -/
def run_optimization {X S : Type} (name : String) (pipeline : List String)
    (steps : ℕ) (kwargs : Dict) (init : X) (stepF : X → S → X × S × ℚ) (s0 : S) :
    Except RunError (Metrics X) :=
  match problemsLookup name with
  | none => Except.error RunError.keyError
  | some _ =>
    match build_optimizer_from_pipeline pipeline (lrAdjust kwargs) with
    | none => Except.error RunError.typeError
    | some _ =>
      let r := optLoop stepF steps init s0
      match r.2.getLast? with
      | none => Except.error RunError.indexError
      | some last => Except.ok ⟨r.1, r.2, last, find_convergence r.2 1e-6⟩

/-- A plotly figure of the playground, recorded by the subplot builder
the dispatcher selected and the arguments forwarded to it (the bodies
of the two builders only assemble external plotly traces and never
reject their inputs). -/
inductive Fig (T : Type) where
  | twoD : String → List T → List ℚ → List T → List String → Fig T
  | highdim : String → List T → List ℚ → List T → List String → Fig T
deriving DecidableEq

/-- Embedding of `create_2d_visualization`: the contour/trajectory
subplot figure for 2D problems, recorded with its forwarded
arguments. -/
def create_2d_visualization {T : Type} (name : String) (trajectory : List T)
    (losses : List ℚ) (gradients : List T) (pipeline : List String) : Fig T :=
  Fig.twoD name trajectory losses gradients pipeline

/-- Embedding of `create_highdim_visualization`: the PCA-projection
subplot figure for higher-dimensional problems, recorded with its
forwarded arguments. -/
def create_highdim_visualization {T : Type} (name : String) (trajectory : List T)
    (losses : List ℚ) (gradients : List T) (pipeline : List String) : Fig T :=
  Fig.highdim name trajectory losses gradients pipeline

/-- Embedding of `create_visualization`: look the problem up and
dispatch on `problem.dim == 2`, forwarding all arguments; `none` embeds
the KeyError on an unknown problem name. -/
def create_visualization {T : Type} (name : String) (trajectory : List T)
    (losses : List ℚ) (gradients : List T) (pipeline : List String) :
    Option (Fig T) :=
  match problemsLookup name with
  | none => none
  | some prob =>
    if prob.dim = 2 then
      some (create_2d_visualization name trajectory losses gradients pipeline)
    else
      some (create_highdim_visualization name trajectory losses gradients pipeline)

/-- Dot product of two rational vectors (torch works in float32; the
layer algebra is embedded exactly over ℚ). -/
def dotQ (a b : List ℚ) : ℚ := (List.zipWith (fun u v => u * v) a b).sum

/-- `torch.nn.functional.linear`: apply the affine map with weight rows
`w` and bias `b` to every sample row of `xs`. -/
def linearQ (xs : List (List ℚ)) (w : List (List ℚ)) (b : List ℚ) :
    List (List ℚ) :=
  xs.map (fun x => List.zipWith (fun wrow bj => dotQ x wrow + bj) w b)

/-- Componentwise ReLU on a batch of rows. -/
def reluQ (xs : List (List ℚ)) : List (List ℚ) :=
  xs.map (fun row => row.map (fun v => max v 0))

/-- `torch.nn.functional.mse_loss` with the default mean reduction. -/
def mseQ (pred target : List (List ℚ)) : ℚ :=
  let ds := (List.zipWith (fun p t => List.zipWith (fun u v => (u - v) ^ 2) p t) pred target).flatten
  ds.sum / ds.length

/-- Row-chunking a flat vector, as `x[idx : idx + numel].view(p.shape)`
does for a (rows × cols) weight. -/
def chunkRows (rows cols : ℕ) (x : List ℚ) : List (List ℚ) :=
  (List.range rows).map (fun i => (x.drop (i * cols)).take cols)

/-- The parameter slices MLPProblem.loss unpacks from the flat vector
x, in `self.model.parameters()` order for the declared
Linear(1,h)/Linear(h,h)/Linear(h,1) stack:
w1 (h×1), b1 (h), w2 (h×h), b2 (h), w3 (1×h), b3 (1). -/
def unpackMLP (h : ℕ) (x : List ℚ) :
    List (List ℚ) × List ℚ × List (List ℚ) × List ℚ × List (List ℚ) × List ℚ :=
  (chunkRows h 1 x,
   (x.drop h).take h,
   chunkRows h h (x.drop (2 * h)),
   (x.drop (2 * h + h * h)).take h,
   chunkRows 1 h (x.drop (3 * h + h * h)),
   (x.drop (4 * h + h * h)).take 1)

/-- Embedding of `MLPProblem.loss` exactly as written in the source:
after `h = relu(linear(x_data, w1, b1))` it computes
`pred = linear(h, w2, b2)`, then overwrites `h = relu(h)` (applying
ReLU to the first hidden activations again, not to `pred`) and finally
takes `pred = linear(h, w3, b3)`, so the w2/b2 layer's output is
discarded. -/
def mlpLossSource (h : ℕ) (xdata ydata : List (List ℚ)) (x : List ℚ) : ℚ :=
  let ps := unpackMLP h x
  let h1 := reluQ (linearQ xdata ps.1 ps.2.1)
  let _predMid := linearQ h1 ps.2.2.1 ps.2.2.2.1
  let h2 := reluQ h1
  let pred := linearQ h2 ps.2.2.2.2.1 ps.2.2.2.2.2
  mseQ pred ydata

/-- Modelled from the declared network: the forward pass of the
`nn.Sequential` Linear → ReLU → Linear → ReLU → Linear that
`MLPProblem.__init__` builds, with weights unpacked from x in parameter
order, followed by the mean-squared error against y_data.  This is the
specification side of the refinement claim. -/
def mlpLossDeclared (h : ℕ) (xdata ydata : List (List ℚ)) (x : List ℚ) : ℚ :=
  let ps := unpackMLP h x
  let h1 := reluQ (linearQ xdata ps.1 ps.2.1)
  let h2 := reluQ (linearQ h1 ps.2.2.1 ps.2.2.2.1)
  let pred := linearQ h2 ps.2.2.2.2.1 ps.2.2.2.2.2
  mseQ pred ydata

/-- Specification-side description of the fns adapter: the catalog func
entries of the pipeline's ids in pipeline order, skipping the
"gradient_input" id, ids with no catalog entry, and catalog funcs that
are None.  Compared against build_optimizer_from_pipeline's output. -/
def pipelineFns (pipeline : List String) : List String :=
  pipeline.filterMap (fun cid =>
    if cid = "gradient_input" then none
    else
      match (get_component_info cid).1 with
      | none => none
      | some comp => comp.func)

/-- All catalog components paired with their category color, in
catalog order. -/
def catalogPairs : List (Component × String) :=
  OPTIMIZER_BLOCKS.flatMap (fun cat => cat.components.map (fun c => (c, cat.color)))

/-- All catalog component ids, in catalog order. -/
def catalogIds : List String := catalogPairs.map (fun p => p.1.id)

/-- A user kwargs dict supplying both "beta" and "betas", as a widget
layer could pass to build_optimizer_from_pipeline. -/
def kwUserBetas : Dict :=
  Dict.ofList [("beta", Val.num 0.5), ("betas", Val.pair (Val.num 0.8) (Val.num 0.7))]

/-- A concrete flat parameter vector for the hidden-size-4 MLP (33
entries, in parameter order): w1 rows, b1, w2 = twice the identity, b2,
w3, b3. -/
def xMLP : List ℚ :=
  [1, 0, 0, 0,
   0, 0, 0, 0,
   2, 0, 0, 0,  0, 2, 0, 0,  0, 0, 2, 0,  0, 0, 0, 2,
   0, 0, 0, 0,
   1, 0, 0, 0,
   0]

/-- Ids whose pipeline entry fires the beta special case of
build_optimizer_from_pipeline: a catalog component with a non-None func
whose params contain "beta" but not "betas" (the momentum components
heavyball, nesterov and nesterov_ema). -/
def triggersBeta (cid : String) : Bool :=
  if cid = "gradient_input" then false
  else
    match (get_component_info cid).1 with
    | none => false
    | some comp =>
      comp.func.isSome &&
        ((lookupP "beta" comp.params).isSome && (lookupP "betas" comp.params).isNone)

/-- Last-entry lookup in an association list: the value the
insertion-order writes of the default loop leave behind for a key. -/
def lookupLast (k : String) : List (String × Val) → Option Val
  | [] => none
  | kv :: rest =>
    match lookupLast k rest with
    | some v => some v
    | none => if kv.1 = k then some kv.2 else none

/-- The catalog-default value a single pipeline entry writes for key k
through the default loop: nothing for "gradient_input", unknown ids and
func-less components; otherwise the component's params entry for k —
with "beta" excluded when the beta special case pops it. -/
def writesDefault (cid k : String) : Option Val :=
  if cid = "gradient_input" then none
  else
    match (get_component_info cid).1 with
    | none => none
    | some comp =>
      match comp.func with
      | none => none
      | some _ =>
        if (lookupP "beta" comp.params).isSome && (lookupP "betas" comp.params).isNone then
          lookupLast k (comp.params.filter (fun kv => kv.1 != "beta"))
        else lookupLast k comp.params

/-- One step of the default merge for key k: a component that writes k
overrides the accumulated value. -/
def mergeStep (k : String) (acc : Option Val) (cid : String) : Option Val :=
  match writesDefault cid k with
  | some v => some v
  | none => acc

/-- The value an unsupplied key k resolves to: the last catalog default
written for k along the pipeline, over the base defaults. -/
def mergedDefault (k : String) (pipeline : List String) : Option Val :=
  pipeline.foldl (mergeStep k) (baseDefaults k)

theorem Dict.insert_self (d : Dict) (k : String) (v : Val) :
    d.insert k v k = some v := by
  simp [Dict.insert]

theorem Dict.insert_other (d : Dict) (k q : String) (v : Val) (h : q ≠ k) :
    d.insert k v q = d q := by
  simp [Dict.insert, h]

theorem addDefaults_user_key (kwargs : Dict) (k : String) (hk : (kwargs k).isSome) :
    ∀ (ps : List (String × Val)) (d : Dict), addDefaults kwargs ps d k = d k := by
  intro ps
  induction ps with
  | nil => intro d; rfl
  | cons kv rest ih =>
    intro d
    show addDefaults kwargs rest (if (kwargs kv.1).isSome then d else d.insert kv.1 kv.2) k = d k
    rw [ih]
    by_cases hs : (kwargs kv.1).isSome
    · rw [if_pos hs]
    · rw [if_neg hs]
      have hne : k ≠ kv.1 := by
        intro hcon
        rw [hcon] at hk
        exact hs hk
      exact Dict.insert_other d kv.1 k kv.2 hne

theorem betaSpecial_other_key (ps : List (String × Val)) (d : Dict)
    (pd : List (String × Val) × Dict) (h : betaSpecial ps d = some pd)
    (k : String) (hk : k ≠ "betas") : pd.2 k = d k := by
  rw [betaSpecial] at h
  split at h
  · split at h
    · cases h
      exact Dict.insert_other d "betas" k _ hk
    · split at h
      · cases h
      · cases h
        exact Dict.insert_other d "betas" k _ hk
  · cases h
    rfl

theorem buildAux_user_key (kwargs : Dict) (k : String) (hkb : k ≠ "betas")
    (hks : (kwargs k).isSome) :
    ∀ (pipeline fns : List String) (d : Dict) (res : List String × Dict),
    buildAux kwargs pipeline fns d = some res → res.2 k = d k := by
  intro pipeline
  induction pipeline with
  | nil =>
    intro fns d res h
    rw [buildAux] at h
    cases h
    rfl
  | cons cid rest ih =>
    intro fns d res h
    rw [buildAux] at h
    split at h
    · exact ih fns d res h
    · split at h
      · exact ih fns d res h
      · split at h
        · exact ih fns d res h
        · split at h
          · cases h
          · rename_i pd hbs
            have h1 := ih _ _ _ h
            rw [h1, addDefaults_user_key kwargs k hks,
                betaSpecial_other_key _ d pd hbs k hkb]

theorem betaSpecial_single_beta (d : Dict) (a b : Val)
    (hv : d "betas" = some (Val.pair a b)) :
    betaSpecial [("beta", Val.num 0.9)] d =
      some ([], d.insert "betas" (Val.pair (Val.num 0.9) b)) := by
  have h1 : betaSpecial [("beta", Val.num 0.9)] d =
      match d "betas" with
      | none => some ([], d.insert "betas" (Val.pair (Val.num 0.9) (Val.num 0.999)))
      | some v =>
        match v.idx1 with
        | none => none
        | some b2 => some ([], d.insert "betas" (Val.pair (Val.num 0.9) b2)) := rfl
  rw [h1, hv]
  rfl

theorem build_heavyball (kwargs : Dict) (a b : Val)
    (hb : kwargs "betas" = some (Val.pair a b)) :
    build_optimizer_from_pipeline ["gradient_input", "heavyball"] kwargs =
      some ⟨(initParams kwargs).insert "betas" (Val.pair (Val.num 0.9) b),
            ["C.heavyball_momentum"]⟩ := by
  have hip : initParams kwargs "betas" = some (Val.pair a b) := by
    simp only [initParams]
    rw [hb]
  have step1 : buildAux kwargs ["gradient_input", "heavyball"] [] (initParams kwargs) =
      match betaSpecial [("beta", Val.num 0.9)] (initParams kwargs) with
      | none => none
      | some pd => buildAux kwargs [] ([] ++ ["C.heavyball_momentum"])
          (addDefaults kwargs pd.1 pd.2) := rfl
  rw [build_optimizer_from_pipeline, step1, betaSpecial_single_beta _ a b hip]
  rfl

/-- C1 counterexample to the claim as stated: with the user kwargs
supplying beta=0.5 and betas=(0.8, 0.7) and the heavyball momentum
component in the pipeline, the options dict maps "betas" to
(0.9, 0.7) — the catalog default beta, not the user's 0.8. -/
theorem C1_user_betas_counterexample :
    kwUserBetas "betas" = some (Val.pair (Val.num 0.8) (Val.num 0.7)) ∧
    (build_optimizer_from_pipeline ["gradient_input", "heavyball"] kwUserBetas).map
        (fun o => o.opt_params "betas") =
      some (some (Val.pair (Val.num 0.9) (Val.num 0.7))) ∧
    Val.pair (Val.num 0.9) (Val.num 0.7) ≠ Val.pair (Val.num 0.8) (Val.num 0.7) := by
  refine ⟨rfl, rfl, ?_⟩
  intro h
  simp only [Val.pair.injEq, Val.num.injEq] at h
  norm_num at h

theorem buildAux_fns (kwargs : Dict) :
    ∀ (pipeline fns : List String) (d : Dict) (res : List String × Dict),
    buildAux kwargs pipeline fns d = some res → res.1 = fns ++ pipelineFns pipeline := by
  intro pipeline
  induction pipeline with
  | nil =>
    intro fns d res h
    rw [buildAux] at h
    cases h
    simp [pipelineFns]
  | cons cid rest ih =>
    intro fns d res h
    rw [buildAux] at h
    rw [pipelineFns, List.filterMap_cons]
    split at h
    · rename_i hgi
      rw [if_pos hgi]
      exact ih fns d res h
    · rename_i hgi
      rw [if_neg hgi]
      split at h
      · exact ih fns d res h
      · split at h
        · rename_i hf
          rw [hf]
          exact ih fns d res h
        · rename_i f hf
          rw [hf]
          split at h
          · cases h
          · have h1 := ih _ _ _ h
            rw [h1, List.append_assoc]
            rfl

/-- C2: the fns adapter.  Whenever build_optimizer_from_pipeline
constructs C.BaseOpt, the fns it passes are exactly the catalog func
entries of the pipeline's ids in pipeline order — skipping the
"gradient_input" id, ids with no catalog entry, and catalog funcs that
are None — and [C.identity] when no functions remain. -/
theorem C2_pipeline_fns (pipeline : List String) (kwargs : Dict) (opt : BaseOpt)
    (h : build_optimizer_from_pipeline pipeline kwargs = some opt) :
    opt.fns = if pipelineFns pipeline = [] then ["C.identity"]
              else pipelineFns pipeline := by
  rw [build_optimizer_from_pipeline] at h
  split at h
  · cases h
  · rename_i fd hfd
    have hfns : fd.1 = pipelineFns pipeline := by
      have := buildAux_fns kwargs pipeline [] (initParams kwargs) fd hfd
      simpa using this
    split at h
    · rename_i hemp
      cases h
      rw [List.isEmpty_iff] at hemp
      rw [hfns] at hemp
      rw [if_pos hemp]
    · rename_i hemp
      cases h
      rw [List.isEmpty_iff] at hemp
      rw [hfns] at hemp
      rw [if_neg hemp]
      exact hfns

/-- C2 witness: the theorem applied to a concrete pipeline containing
the input block, an unknown id, a func-less lookup and two real
components. -/
theorem C2_pipeline_fns_witness :
    pipelineFns ["gradient_input", "unknown_id", "heavyball", "adam_scale"] =
      ["C.heavyball_momentum", "C.scale_by_adam"] ∧
    (build_optimizer_from_pipeline ["gradient_input", "unknown_id", "heavyball", "adam_scale"]
        Dict.empty).map (fun o => o.fns) =
      some ["C.heavyball_momentum", "C.scale_by_adam"] := by
  refine ⟨rfl, ?_⟩
  cases hb : build_optimizer_from_pipeline ["gradient_input", "unknown_id", "heavyball", "adam_scale"] Dict.empty with
  | none =>
    have hs : (build_optimizer_from_pipeline
        ["gradient_input", "unknown_id", "heavyball", "adam_scale"] Dict.empty).isSome = true := rfl
    rw [hb] at hs
    cases hs
  | some opt =>
    have hval := C2_pipeline_fns _ _ opt hb
    rw [Option.map_some', hval]
    rfl

theorem optLoop_trajectory_length {X S : Type} (stepF : X → S → X × S × ℚ) :
    ∀ (n : ℕ) (x : X) (s : S), (optLoop stepF n x s).1.length = n := by
  intro n
  induction n with
  | zero => intro x s; rfl
  | succ m ih =>
    intro x s
    rw [optLoop]
    simp [ih]

theorem optLoop_losses_length {X S : Type} (stepF : X → S → X × S × ℚ) :
    ∀ (n : ℕ) (x : X) (s : S), (optLoop stepF n x s).2.length = n := by
  intro n
  induction n with
  | zero => intro x s; rfl
  | succ m ih =>
    intro x s
    rw [optLoop]
    simp [ih]

theorem optLoop_trajectory_head {X S : Type} (stepF : X → S → X × S × ℚ)
    (n : ℕ) (x : X) (s : S) (h : n ≠ 0) :
    (optLoop stepF n x s).1.head? = some x := by
  cases n with
  | zero => exact absurd rfl h
  | succ m => rfl

/-- C3: the training-loop outputs.  For a problem name present in
PROBLEMS, a successfully built optimizer and steps ≥ 1,
run_optimization returns a metrics dict whose trajectory has exactly
`steps` entries beginning with the initial parameters, whose losses
list has exactly `steps` entries, whose final_loss is the last element
of the losses list, and whose steps_to_converge is find_convergence of
the losses at the source's 1e-6 threshold. -/
theorem C3_training_metrics {X S : Type} (name : String) (p : Problem)
    (pipeline : List String) (steps : ℕ) (kwargs : Dict) (init : X)
    (stepF : X → S → X × S × ℚ) (s0 : S)
    (hname : problemsLookup name = some p) (hsteps : 1 ≤ steps)
    (hbuild : (build_optimizer_from_pipeline pipeline (lrAdjust kwargs)).isSome = true) :
    ∃ m : Metrics X, run_optimization name pipeline steps kwargs init stepF s0 = Except.ok m ∧
      m.trajectory.length = steps ∧
      m.trajectory.head? = some init ∧
      m.losses.length = steps ∧
      m.losses.getLast? = some m.final_loss ∧
      m.steps_to_converge = find_convergence m.losses 1e-6 := by
  rw [run_optimization, hname]
  cases hb : build_optimizer_from_pipeline pipeline (lrAdjust kwargs) with
  | none => rw [hb] at hbuild; cases hbuild
  | some opt =>
    have hlen : (optLoop stepF steps init s0).2.length = steps :=
      optLoop_losses_length stepF steps init s0
    have hne : (optLoop stepF steps init s0).2 ≠ [] := by
      intro hcon
      rw [hcon] at hlen
      simp at hlen
      omega
    cases hl : (optLoop stepF steps init s0).2.getLast? with
    | none =>
      rw [List.getLast?_eq_none_iff] at hl
      exact absurd hl hne
    | some last =>
      refine ⟨⟨(optLoop stepF steps init s0).1, (optLoop stepF steps init s0).2, last,
        find_convergence (optLoop stepF steps init s0).2 1e-6⟩, ?_, ?_, ?_, hlen, ?_, rfl⟩
      · simp only [hl]
      · exact optLoop_trajectory_length stepF steps init s0
      · exact optLoop_trajectory_head stepF steps init s0 (by omega)
      · exact hl

/-- C3 witness: the theorem applied to the Simple Bowl problem, the
bare pipeline, one step and a constant external step function. -/
theorem C3_training_metrics_witness :
    ∃ m : Metrics ℚ, run_optimization "Simple Bowl (2D)" ["gradient_input"] 1 Dict.empty
        (0 : ℚ) (fun x s => (x, s, 0)) () = Except.ok m ∧
      m.trajectory.length = 1 ∧
      m.trajectory.head? = some (0 : ℚ) ∧
      m.losses.length = 1 ∧
      m.losses.getLast? = some m.final_loss ∧
      m.steps_to_converge = find_convergence m.losses 1e-6 :=
  C3_training_metrics "Simple Bowl (2D)" ⟨2⟩ ["gradient_input"] 1 Dict.empty 0
    (fun x s => (x, s, 0)) () rfl (by decide) rfl

/-- C4: no failure-handling policy.  run_optimization catches nothing:
for a problem name outside PROBLEMS it fails with the KeyError of the
lookup regardless of pipeline, steps or optimizer behaviour (so before
any optimization step), and for steps = 0 with a valid name and a
successfully built optimizer it fails with the IndexError of
`losses[-1]` on the empty losses list; in both cases an error, never a
fallback metrics value, is the result. -/
theorem C4_failure_propagation :
    (∀ (X S : Type) (name : String) (pipeline : List String) (steps : ℕ)
       (kwargs : Dict) (init : X) (stepF : X → S → X × S × ℚ) (s0 : S),
      problemsLookup name = none →
      run_optimization name pipeline steps kwargs init stepF s0 =
        Except.error RunError.keyError) ∧
    (∀ (X S : Type) (name : String) (pipeline : List String)
       (kwargs : Dict) (init : X) (stepF : X → S → X × S × ℚ) (s0 : S),
      (problemsLookup name).isSome = true →
      (build_optimizer_from_pipeline pipeline (lrAdjust kwargs)).isSome = true →
      run_optimization name pipeline 0 kwargs init stepF s0 =
        Except.error RunError.indexError) := by
  constructor
  · intro X S name pipeline steps kwargs init stepF s0 h
    rw [run_optimization, h]
  · intro X S name pipeline kwargs init stepF s0 hname hbuild
    cases hn : problemsLookup name with
    | none => rw [hn] at hname; cases hname
    | some p =>
      rw [run_optimization, hn]
      cases hb : build_optimizer_from_pipeline pipeline (lrAdjust kwargs) with
      | none => rw [hb] at hbuild; cases hbuild
      | some opt => rfl

/-- C4 witness: the theorem applied at an unknown problem name, and at
the Simple Bowl problem with zero steps. -/
theorem C4_failure_propagation_witness :
    run_optimization "No Such Problem" ["gradient_input"] 3 Dict.empty (0 : ℚ)
        (fun x s => (x, s, 0)) () = Except.error RunError.keyError ∧
    run_optimization "Simple Bowl (2D)" ["gradient_input"] 0 Dict.empty (0 : ℚ)
        (fun x s => (x, s, 0)) () = Except.error RunError.indexError :=
  ⟨C4_failure_propagation.1 ℚ Unit "No Such Problem" ["gradient_input"] 3 Dict.empty 0
      (fun x s => (x, s, 0)) () rfl,
   C4_failure_propagation.2 ℚ Unit "Simple Bowl (2D)" ["gradient_input"] Dict.empty 0
      (fun x s => (x, s, 0)) () rfl rfl⟩

/-- C5: MLPProblem.loss does not implement the declared model.  At the
concrete instance with hidden size 4, a single data point x_data=[[1]],
y_data=[[0]] and the flat parameter vector xMLP (first layer passes the
input through unit weights, second layer doubles, third layer reads the
first hidden unit), the source's functional loss is 1 while the forward
pass of the declared Linear-ReLU-Linear-ReLU-Linear network gives 4:
the source applies the third linear layer to the re-ReLUed first hidden
activations and discards the computed second-layer output. -/
theorem C5_mlp_loss_divergence :
    mlpLossSource 4 [[1]] [[0]] xMLP = 1 ∧
    mlpLossDeclared 4 [[1]] [[0]] xMLP = 4 ∧
    mlpLossSource 4 [[1]] [[0]] xMLP ≠ mlpLossDeclared 4 [[1]] [[0]] xMLP := by
  have h1 : mlpLossSource 4 [[1]] [[0]] xMLP = 1 := by
    norm_num [mlpLossSource, unpackMLP, chunkRows, linearQ, reluQ, mseQ, dotQ, xMLP,
      List.range_succ]
  have h2 : mlpLossDeclared 4 [[1]] [[0]] xMLP = 4 := by
    norm_num [mlpLossDeclared, unpackMLP, chunkRows, linearQ, reluQ, mseQ, dotQ, xMLP,
      List.range_succ]
  refine ⟨h1, h2, ?_⟩
  rw [h1, h2]
  norm_num

theorem findComp_eq_find?_aux (cid : String) :
    ∀ cats : List Category,
    findComp cid cats =
      match (cats.flatMap (fun cat => cat.components.map (fun c => (c, cat.color)))).find?
          (fun p => p.1.id == cid) with
      | some pc => (some pc.1, pc.2)
      | none => (none, "#757575") := by
  intro cats
  induction cats with
  | nil => rfl
  | cons cat rest ih =>
    rw [findComp, List.flatMap_cons, List.find?_append]
    have hmap : (cat.components.map (fun c => (c, cat.color))).find? (fun p => p.1.id == cid)
        = (cat.components.find? (fun c => c.id == cid)).map (fun c => (c, cat.color)) := by
      induction cat.components with
      | nil => rfl
      | cons c cs ihc =>
        rw [List.map_cons, List.find?_cons, List.find?_cons]
        cases hc : (c.id == cid) with
        | false =>
          simp only [hc]
          exact ihc
        | true =>
          simp only [hc]
          rfl
    rw [hmap]
    cases hf : cat.components.find? (fun c => c.id == cid) with
    | some c => rfl
    | none =>
      simp only [Option.map_none', Option.none_orElse]
      exact ih

/-- C6: catalog lookup.  Component ids are unique across all categories
of OPTIMIZER_BLOCKS (each component carrying the six metadata fields of
the Component structure), and for every string comp_id,
get_component_info returns the unique catalog component with that id
paired with its category color, or (none, "#757575") when no catalog
component has that id. -/
theorem C6_catalog_lookup :
    catalogIds.Nodup ∧
    ∀ cid : String, get_component_info cid =
      match catalogPairs.find? (fun p => p.1.id == cid) with
      | some pc => (some pc.1, pc.2)
      | none => (none, "#757575") := by
  constructor
  · decide
  · intro cid
    rw [get_component_info, findComp_eq_find?_aux cid OPTIMIZER_BLOCKS]
    rfl

/-- C7: recipe validity.  Every recipe in RECIPES begins with the
"gradient_input" id, and every component id in every recipe resolves to
a catalog component through get_component_info. -/
theorem C7_recipes_valid :
    ∀ r ∈ RECIPES, r.2.head? = some "gradient_input" ∧
      ∀ cid ∈ r.2, ((get_component_info cid).1).isSome = true := by
  decide

/-- C7 witness: the theorem applied to the AdamW recipe and its
adam_scale entry. -/
theorem C7_recipes_valid_witness :
    ((get_component_info "adam_scale").1).isSome = true :=
  (C7_recipes_valid ("AdamW", ["gradient_input", "adam_scale", "weight_decay"])
    (by decide)).2 "adam_scale" (by decide)

theorem findRange_first (p : ℕ → Bool) :
    ∀ (k start : ℕ),
      (∀ i, (List.range' start k).find? p = some i →
        start ≤ i ∧ i < start + k ∧ p i = true ∧
        ∀ j, start ≤ j → j < i → p j = false) ∧
      ((List.range' start k).find? p = none →
        ∀ j, start ≤ j → j < start + k → p j = false) := by
  intro k
  induction k with
  | zero =>
    intro start
    refine ⟨?_, ?_⟩
    · intro i h
      cases h
    · intro _ j hj1 hj2
      omega
  | succ m ih =>
    intro start
    rw [List.range'_succ, List.find?_cons]
    cases hp : p start with
    | true =>
      refine ⟨?_, ?_⟩
      · intro i h
        cases h
        exact ⟨le_refl start, by omega, hp, by omega⟩
      · intro h
        cases h
    | false =>
      obtain ⟨iha, ihb⟩ := ih (start + 1)
      refine ⟨?_, ?_⟩
      · intro i h
        obtain ⟨h1, h2, h3, h4⟩ := iha i h
        refine ⟨by omega, by omega, h3, ?_⟩
        intro j hj1 hj2
        by_cases hjs : j = start
        · rw [hjs]
          exact hp
        · exact h4 j (by omega) hj2
      · intro h j hj1 hj2
        by_cases hjs : j = start
        · rw [hjs]
          exact hp
        · exact ihb h j (by omega) (by omega)

/-- C8: find_convergence.  For every losses list it returns the length
when there are fewer than 10 entries; otherwise it returns the smallest
index i with 10 ≤ i < length whose loss differs from losses[i-5] by
less than the threshold 1e-6 — the length when no such index exists —
and the result never exceeds the length. -/
theorem C8_find_convergence_spec (losses : List ℚ) :
    find_convergence losses 1e-6 ≤ losses.length ∧
    (losses.length < 10 → find_convergence losses 1e-6 = losses.length) ∧
    (10 ≤ losses.length →
      (find_convergence losses 1e-6 < losses.length →
        10 ≤ find_convergence losses 1e-6 ∧
        convTest losses 1e-6 (find_convergence losses 1e-6) = true ∧
        ∀ j, 10 ≤ j → j < find_convergence losses 1e-6 →
          convTest losses 1e-6 j = false) ∧
      (find_convergence losses 1e-6 = losses.length →
        ∀ j, 10 ≤ j → j < losses.length → convTest losses 1e-6 j = false)) := by
  by_cases hlen : losses.length < 10
  · have h0 : find_convergence losses 1e-6 = losses.length := by
      rw [find_convergence, if_pos hlen]
    exact ⟨le_of_eq h0, fun _ => h0, fun hge => absurd hge (by omega)⟩
  · obtain ⟨ha, hb⟩ := findRange_first (convTest losses 1e-6) (losses.length - 10) 10
    cases hf : (List.range' 10 (losses.length - 10)).find? (convTest losses 1e-6) with
    | some i =>
      have h0 : find_convergence losses 1e-6 = i := by
        rw [find_convergence, if_neg hlen, hf]
      obtain ⟨h1, h2, h3, h4⟩ := ha i hf
      refine ⟨by omega, fun hcon => absurd hcon hlen, fun _ => ⟨?_, ?_⟩⟩
      · intro _
        rw [h0]
        exact ⟨h1, h3, h4⟩
      · intro heq
        rw [h0] at heq
        intro j hj1 hj2
        omega
    | none =>
      have h0 : find_convergence losses 1e-6 = losses.length := by
        rw [find_convergence, if_neg hlen, hf]
      refine ⟨le_of_eq h0, fun hcon => absurd hcon hlen, fun _ => ⟨?_, ?_⟩⟩
      · intro hl
        rw [h0] at hl
        omega
      · intro _ j hj1 hj2
        exact hb hf j hj1 (by omega)

/-- C8 witness: the theorem applied to a concrete five-element losses
list, which is shorter than ten entries. -/
theorem C8_find_convergence_spec_witness :
    find_convergence [10, 8, 6, 4, 2] 1e-6 = 5 :=
  (C8_find_convergence_spec [10, 8, 6, 4, 2]).2.1 (by decide)

/-- C9: remove_block.  The pipeline is returned unchanged when the
integer index is out of range or the element at the index is
"gradient_input"; otherwise the result is the input with exactly the
indexed element removed and all other elements in their original order
(the source pops a copy, leaving the input list unmutated — the
embedding is pure by construction); consequently the number of
"gradient_input" entries never changes, so they can never be
removed. -/
theorem C9_remove_block_spec (pipeline : List String) (index : ℤ) :
    (¬ (0 ≤ index ∧ index < pipeline.length) → remove_block pipeline index = pipeline) ∧
    (pipeline.getD index.toNat "" = "gradient_input" →
      remove_block pipeline index = pipeline) ∧
    (0 ≤ index → index < pipeline.length →
      pipeline.getD index.toNat "" ≠ "gradient_input" →
      remove_block pipeline index =
        pipeline.take index.toNat ++ pipeline.drop (index.toNat + 1)) ∧
    (remove_block pipeline index).count "gradient_input" =
      pipeline.count "gradient_input" := by
  refine ⟨?_, ?_, ?_, ?_⟩
  · intro h
    rw [remove_block, if_neg (fun hc => h ⟨hc.1, hc.2.1⟩)]
  · intro h
    rw [remove_block, if_neg (fun hc => hc.2.2 h)]
  · intro h1 h2 h3
    rw [remove_block, if_pos ⟨h1, h2, h3⟩, List.eraseIdx_eq_take_drop_succ]
  · rw [remove_block]
    split
    · rename_i hcond
      obtain ⟨h1, h2, h3⟩ := hcond
      have hlt : index.toNat < pipeline.length := by omega
      have hdecomp : pipeline =
          pipeline.take index.toNat ++
            (pipeline[index.toNat] :: pipeline.drop (index.toNat + 1)) := by
        conv_lhs => rw [← List.take_append_drop index.toNat pipeline]
        rw [List.drop_eq_getElem_cons hlt]
      have hne : pipeline[index.toNat] ≠ "gradient_input" := by
        rw [List.getD_eq_getElem?_getD, List.getElem?_eq_getElem hlt] at h3
        simpa using h3
      rw [List.eraseIdx_eq_take_drop_succ]
      conv_rhs => rw [hdecomp]
      rw [List.count_append, List.count_append, List.count_cons]
      simp [hne]
    · rfl

/-- C9 witness: the theorem applied to a concrete pipeline and a
removable in-range index. -/
theorem C9_remove_block_spec_witness :
    remove_block ["gradient_input", "a", "b"] 1 = ["gradient_input", "b"] :=
  (C9_remove_block_spec ["gradient_input", "a", "b"] 1).2.2.1 (by decide) (by decide)
    (by decide)

/-- C10: visualization dispatch.  For a problem name present in
PROBLEMS, create_visualization returns the 2D landscape figure of
create_2d_visualization exactly when the problem's dim is 2, and the
PCA figure of create_highdim_visualization otherwise, forwarding the
problem name, trajectory, losses, gradients and pipeline unchanged. -/
theorem C10_visualization_dispatch {T : Type} (name : String) (p : Problem)
    (trajectory : List T) (losses : List ℚ) (gradients : List T)
    (pipeline : List String) (h : problemsLookup name = some p) :
    create_visualization name trajectory losses gradients pipeline =
      some (if p.dim = 2 then
              create_2d_visualization name trajectory losses gradients pipeline
            else
              create_highdim_visualization name trajectory losses gradients pipeline) ∧
    (create_visualization name trajectory losses gradients pipeline =
        some (create_2d_visualization name trajectory losses gradients pipeline) ↔
      p.dim = 2) := by
  have hstep : create_visualization name trajectory losses gradients pipeline =
      if p.dim = 2 then
        some (create_2d_visualization name trajectory losses gradients pipeline)
      else
        some (create_highdim_visualization name trajectory losses gradients pipeline) := by
    rw [create_visualization, h]
  constructor
  · rw [hstep, apply_ite some]
  · rw [hstep]
    by_cases hd : p.dim = 2
    · simp [hd]
    · simp [hd, create_2d_visualization, create_highdim_visualization]

/-- C10 witness: the theorem applied to the Simple Bowl 2D problem with
empty trajectory data. -/
theorem C10_visualization_dispatch_witness :
    create_visualization "Simple Bowl (2D)" ([] : List ℚ) [] [] [] =
      some (create_2d_visualization "Simple Bowl (2D)" ([] : List ℚ) [] [] []) :=
  (C10_visualization_dispatch "Simple Bowl (2D)" ⟨2⟩ [] [] [] [] rfl).2.mpr rfl

theorem betaSpecial_trigger_eq (ps : List (String × Val)) (d : Dict) (beta : Val)
    (h1 : lookupP "beta" ps = some beta) (h2 : lookupP "betas" ps = none) :
    betaSpecial ps d =
      match d "betas" with
      | none => some (ps.filter (fun kv => kv.1 != "beta"),
          d.insert "betas" (Val.pair beta (Val.num 0.999)))
      | some v =>
        match v.idx1 with
        | none => none
        | some b2 => some (ps.filter (fun kv => kv.1 != "beta"),
            d.insert "betas" (Val.pair beta b2)) := by
  rw [betaSpecial, h1, h2]

theorem betaSpecial_notrigger (ps : List (String × Val)) (d : Dict)
    (h : lookupP "beta" ps = none ∨ ∃ v, lookupP "betas" ps = some v) :
    betaSpecial ps d = some (ps, d) := by
  rw [betaSpecial]
  rcases h with h1 | ⟨v, h2⟩
  · rw [h1]
  · cases hb : lookupP "beta" ps with
    | none => rw [h2]
    | some beta => rw [h2]

theorem catalogBeta_uniform (cid : String) (comp : Component)
    (hgc : (get_component_info cid).1 = some comp)
    (beta : Val) (hb : lookupP "beta" comp.params = some beta)
    (hbs : lookupP "betas" comp.params = none) : beta = Val.num 0.9 := by
  rw [get_component_info, findComp_eq_find?_aux] at hgc
  cases hff : (OPTIMIZER_BLOCKS.flatMap
      (fun cat => cat.components.map (fun c => (c, cat.color)))).find?
      (fun p => p.1.id == cid) with
  | none =>
    rw [hff] at hgc
    simp at hgc
  | some pc =>
    rw [hff] at hgc
    simp only [Option.some.injEq] at hgc
    rw [← hgc] at hb hbs
    have hmem : pc ∈ catalogPairs := List.mem_of_find?_eq_some hff
    fin_cases hmem <;> simp_all [lookupP]

theorem addDefaults_unsupplied (kwargs : Dict) (k : String) (hk : kwargs k = none) :
    ∀ (ps : List (String × Val)) (d : Dict),
      addDefaults kwargs ps d k =
        match lookupLast k ps with
        | some v => some v
        | none => d k := by
  intro ps
  induction ps with
  | nil => intro d; rfl
  | cons kv rest ih =>
    intro d
    show addDefaults kwargs rest (if (kwargs kv.1).isSome then d else d.insert kv.1 kv.2) k = _
    rw [ih, lookupLast]
    cases hl : lookupLast k rest with
    | some v => rfl
    | none =>
      by_cases hkv : kv.1 = k
      · have hins : (if (kwargs kv.1).isSome = true then d else d.insert kv.1 kv.2) =
            d.insert kv.1 kv.2 := by
          rw [hkv, hk]
          rfl
        rw [hins, hkv, Dict.insert_self, if_pos rfl]
      · rw [if_neg hkv]
        cases hkw : (kwargs kv.1).isSome with
        | true => rfl
        | false => exact Dict.insert_other d kv.1 k kv.2 (fun hc => hkv hc.symm)

theorem betaSpecial_fst (ps : List (String × Val)) (d : Dict)
    (pd : List (String × Val) × Dict) (h : betaSpecial ps d = some pd) :
    pd.1 = if (lookupP "beta" ps).isSome && (lookupP "betas" ps).isNone
           then ps.filter (fun kv => kv.1 != "beta") else ps := by
  cases h1 : lookupP "beta" ps with
  | none =>
    rw [betaSpecial_notrigger ps d (Or.inl h1)] at h
    cases h
    simp [h1]
  | some beta =>
    cases h2 : lookupP "betas" ps with
    | some v =>
      rw [betaSpecial_notrigger ps d (Or.inr ⟨v, h2⟩)] at h
      cases h
      simp [h1, h2]
    | none =>
      rw [betaSpecial_trigger_eq ps d beta h1 h2] at h
      rw [if_pos (show ((some beta).isSome && (none : Option Val).isNone) = true from rfl)]
      split at h
      · cases h
        rfl
      · split at h
        · cases h
        · cases h
          rfl

theorem buildAux_unsupplied (kwargs : Dict) (k : String) (hk : kwargs k = none)
    (hkb : k ≠ "betas") :
    ∀ (pipeline fns : List String) (d : Dict) (res : List String × Dict),
      buildAux kwargs pipeline fns d = some res →
      res.2 k = pipeline.foldl (mergeStep k) (d k) := by
  intro pipeline
  induction pipeline with
  | nil =>
    intro fns d res h
    rw [buildAux] at h
    cases h
    rfl
  | cons cid rest ih =>
    intro fns d res h
    rw [buildAux] at h
    rw [List.foldl_cons]
    split at h
    · rename_i hgi
      have hw : mergeStep k (d k) cid = d k := by
        rw [mergeStep, writesDefault, if_pos hgi]
      rw [hw]
      exact ih fns d res h
    · split at h
      · rename_i hgi xoc hci
        have hw : mergeStep k (d k) cid = d k := by
          simp [mergeStep, writesDefault, hgi, hci]
        rw [hw]
        exact ih fns d res h
      · split at h
        · rename_i hgi xoc comp hci xof hf
          have hw : mergeStep k (d k) cid = d k := by
            simp [mergeStep, writesDefault, hgi, hci, hf]
          rw [hw]
          exact ih fns d res h
        · split at h
          · cases h
          · rename_i hgi xoc comp hci xof f hf xobs pd hbs
            have hstep : addDefaults kwargs pd.1 pd.2 k = mergeStep k (d k) cid := by
              rw [addDefaults_unsupplied kwargs k hk]
              have hw : writesDefault cid k = lookupLast k pd.1 := by
                simp only [writesDefault, if_neg hgi, hci, hf]
                rw [betaSpecial_fst comp.params d pd hbs]
                by_cases hc : ((lookupP "beta" comp.params).isSome &&
                    (lookupP "betas" comp.params).isNone) = true
                · rw [if_pos hc, if_pos hc]
                · rw [if_neg hc, if_neg hc]
              rw [mergeStep, hw]
              cases hll : lookupLast k pd.1 with
              | some v => rfl
              | none => exact betaSpecial_other_key comp.params d pd hbs k hkb
            have hres := ih _ _ _ h
            rw [hres, hstep]

theorem buildAux_betas_keep (kwargs : Dict) (b : Val)
    (hkw : (kwargs "betas").isSome = true) :
    ∀ (pipeline fns : List String) (d : Dict) (res : List String × Dict),
      buildAux kwargs pipeline fns d = some res →
      d "betas" = some (Val.pair (Val.num 0.9) b) →
      res.2 "betas" = some (Val.pair (Val.num 0.9) b) := by
  intro pipeline
  induction pipeline with
  | nil =>
    intro fns d res h hd
    rw [buildAux] at h
    cases h
    exact hd
  | cons cid rest ih =>
    intro fns d res h hd
    rw [buildAux] at h
    split at h
    · exact ih fns d res h hd
    · split at h
      · exact ih fns d res h hd
      · split at h
        · exact ih fns d res h hd
        · split at h
          · cases h
          · rename_i hgi xoc comp hci xof f hf xobs pd hbs
            cases h1 : lookupP "beta" comp.params with
            | none =>
              rw [betaSpecial_notrigger comp.params d (Or.inl h1)] at hbs
              cases hbs
              refine ih _ _ res h ?_
              rw [addDefaults_user_key kwargs "betas" hkw]
              exact hd
            | some beta =>
              cases h2 : lookupP "betas" comp.params with
              | some v =>
                rw [betaSpecial_notrigger comp.params d (Or.inr ⟨v, h2⟩)] at hbs
                cases hbs
                refine ih _ _ res h ?_
                rw [addDefaults_user_key kwargs "betas" hkw]
                exact hd
              | none =>
                have huni : beta = Val.num 0.9 :=
                  catalogBeta_uniform cid comp hci beta h1 h2
                have hbc : betaSpecial comp.params d =
                    some (comp.params.filter (fun kv => kv.1 != "beta"),
                      d.insert "betas" (Val.pair beta b)) := by
                  rw [betaSpecial_trigger_eq comp.params d beta h1 h2, hd]
                  rfl
                rw [hbc] at hbs
                cases hbs
                refine ih _ _ res h ?_
                rw [addDefaults_user_key kwargs "betas" hkw]
                show d.insert "betas" (Val.pair beta b) "betas" =
                  some (Val.pair (Val.num 0.9) b)
                rw [Dict.insert_self, huni]

theorem buildAux_betas_trigger (kwargs : Dict) (b : Val)
    (hkw : (kwargs "betas").isSome = true) :
    ∀ (pipeline fns : List String) (d : Dict) (res : List String × Dict) (c : Val),
      buildAux kwargs pipeline fns d = some res →
      d "betas" = some (Val.pair c b) →
      (∃ cid ∈ pipeline, triggersBeta cid = true) →
      res.2 "betas" = some (Val.pair (Val.num 0.9) b) := by
  intro pipeline
  induction pipeline with
  | nil =>
    intro fns d res c h hd hex
    obtain ⟨cid, hmem, _⟩ := hex
    cases hmem
  | cons cid rest ih =>
    intro fns d res c h hd hex
    obtain ⟨cid', hmem, htr⟩ := hex
    rw [buildAux] at h
    split at h
    · rename_i hgi
      have hft : triggersBeta cid = false := by rw [triggersBeta, if_pos hgi]
      rcases List.mem_cons.mp hmem with heq | hr
      · rw [heq, hft] at htr
        cases htr
      · exact ih fns d res c h hd ⟨cid', hr, htr⟩
    · split at h
      · rename_i hgi xoc hci
        have hft : triggersBeta cid = false := by simp [triggersBeta, hgi, hci]
        rcases List.mem_cons.mp hmem with heq | hr
        · rw [heq, hft] at htr
          cases htr
        · exact ih fns d res c h hd ⟨cid', hr, htr⟩
      · split at h
        · rename_i hgi xoc comp hci xof hf
          have hft : triggersBeta cid = false := by simp [triggersBeta, hgi, hci, hf]
          rcases List.mem_cons.mp hmem with heq | hr
          · rw [heq, hft] at htr
            cases htr
          · exact ih fns d res c h hd ⟨cid', hr, htr⟩
        · split at h
          · cases h
          · rename_i hgi xoc comp hci xof f hf xobs pd hbs
            cases h1 : lookupP "beta" comp.params with
            | none =>
              have hft : triggersBeta cid = false := by
                simp [triggersBeta, hgi, hci, hf, h1]
              rw [betaSpecial_notrigger comp.params d (Or.inl h1)] at hbs
              cases hbs
              rcases List.mem_cons.mp hmem with heq | hr
              · rw [heq, hft] at htr
                cases htr
              · refine ih _ _ res c h ?_ ⟨cid', hr, htr⟩
                rw [addDefaults_user_key kwargs "betas" hkw]
                exact hd
            | some beta =>
              cases h2 : lookupP "betas" comp.params with
              | some v =>
                have hft : triggersBeta cid = false := by
                  simp [triggersBeta, hgi, hci, hf, h2]
                rw [betaSpecial_notrigger comp.params d (Or.inr ⟨v, h2⟩)] at hbs
                cases hbs
                rcases List.mem_cons.mp hmem with heq | hr
                · rw [heq, hft] at htr
                  cases htr
                · refine ih _ _ res c h ?_ ⟨cid', hr, htr⟩
                  rw [addDefaults_user_key kwargs "betas" hkw]
                  exact hd
              | none =>
                have huni : beta = Val.num 0.9 :=
                  catalogBeta_uniform cid comp hci beta h1 h2
                have hbc : betaSpecial comp.params d =
                    some (comp.params.filter (fun kv => kv.1 != "beta"),
                      d.insert "betas" (Val.pair beta b)) := by
                  rw [betaSpecial_trigger_eq comp.params d beta h1 h2, hd]
                  rfl
                rw [hbc] at hbs
                cases hbs
                refine buildAux_betas_keep kwargs b hkw rest _ _ res h ?_
                rw [addDefaults_user_key kwargs "betas" hkw]
                show d.insert "betas" (Val.pair beta b) "betas" =
                  some (Val.pair (Val.num 0.9) b)
                rw [Dict.insert_self, huni]

/-- C1 (amended).  Parameter-merging precedence in
build_optimizer_from_pipeline: (1) for every pipeline and every key
other than "betas" that the user supplied in kwargs, the options dict
passed to C.BaseOpt maps it to the user's value; (2) the momentum
components heavyball, nesterov and nesterov_ema each carry a catalog
default "beta" without "betas" and so fire the beta special case;
(3) exception forced by that special case: whenever any such component
appears anywhere in the pipeline and the user supplied a "betas" pair,
the resulting "betas" entry is the catalog beta 0.9 paired with the
second component of the user's pair — not the user's pair and not the
user's "beta"; (4) every key the user did not supply (other than
"betas") resolves to the last catalog component default written for it
along the pipeline, over the base defaults lr=0.001, step=1,
caution=False, weight_decay=0.0. -/
theorem C1_param_precedence :
    (∀ (pipeline : List String) (kwargs : Dict) (opt : BaseOpt) (k : String) (v : Val),
      build_optimizer_from_pipeline pipeline kwargs = some opt →
      k ≠ "betas" → kwargs k = some v → opt.opt_params k = some v) ∧
    (triggersBeta "heavyball" = true ∧ triggersBeta "nesterov" = true ∧
      triggersBeta "nesterov_ema" = true) ∧
    (∀ (pipeline : List String) (kwargs : Dict) (a b : Val) (opt : BaseOpt),
      build_optimizer_from_pipeline pipeline kwargs = some opt →
      kwargs "betas" = some (Val.pair a b) →
      (∃ cid ∈ pipeline, triggersBeta cid = true) →
      opt.opt_params "betas" = some (Val.pair (Val.num 0.9) b)) ∧
    (∀ (pipeline : List String) (kwargs : Dict) (opt : BaseOpt) (k : String),
      build_optimizer_from_pipeline pipeline kwargs = some opt →
      kwargs k = none → k ≠ "betas" →
      opt.opt_params k = mergedDefault k pipeline) := by
  refine ⟨?_, ⟨rfl, rfl, rfl⟩, ?_, ?_⟩
  · intro pipeline kwargs opt k v hbuild hkb hkv
    rw [build_optimizer_from_pipeline] at hbuild
    split at hbuild
    · cases hbuild
    · rename_i fd hfd
      have hpres : fd.2 k = initParams kwargs k :=
        buildAux_user_key kwargs k hkb (by rw [hkv]; rfl) pipeline [] (initParams kwargs) fd hfd
      have hip : initParams kwargs k = some v := by
        simp only [initParams]
        rw [hkv]
      split at hbuild
      · cases hbuild
        show fd.2 k = some v
        rw [hpres, hip]
      · cases hbuild
        show fd.2 k = some v
        rw [hpres, hip]
  · intro pipeline kwargs a b opt hbuild hb hex
    rw [build_optimizer_from_pipeline] at hbuild
    split at hbuild
    · cases hbuild
    · rename_i fd hfd
      have hkw : (kwargs "betas").isSome = true := by
        rw [hb]
        rfl
      have hinit : initParams kwargs "betas" = some (Val.pair a b) := by
        simp only [initParams]
        rw [hb]
      have hres := buildAux_betas_trigger kwargs b hkw pipeline [] (initParams kwargs)
        fd a hfd hinit hex
      split at hbuild
      · cases hbuild
        exact hres
      · cases hbuild
        exact hres
  · intro pipeline kwargs opt k hbuild hkn hkb
    rw [build_optimizer_from_pipeline] at hbuild
    split at hbuild
    · cases hbuild
    · rename_i fd hfd
      have hres := buildAux_unsupplied kwargs k hkn hkb pipeline [] (initParams kwargs) fd hfd
      have hinit : initParams kwargs k = baseDefaults k := by
        simp only [initParams]
        rw [hkn]
      rw [hinit] at hres
      split at hbuild
      · cases hbuild
        exact hres
      · cases hbuild
        exact hres

/-- C1 witness: the amended theorem applied at concrete pipelines and
the kwargs dict supplying beta and betas — part (1) at the user's
"beta", part (3) at a pipeline containing nesterov, part (4) at
adam_scale's unsupplied "eps". -/
theorem C1_param_precedence_witness :
    (build_optimizer_from_pipeline ["gradient_input", "heavyball"] kwUserBetas).map
        (fun o => o.opt_params "beta") = some (some (Val.num 0.5)) ∧
    (build_optimizer_from_pipeline ["gradient_input", "nesterov"] kwUserBetas).map
        (fun o => o.opt_params "betas") =
      some (some (Val.pair (Val.num 0.9) (Val.num 0.7))) ∧
    (build_optimizer_from_pipeline ["gradient_input", "adam_scale"] kwUserBetas).map
        (fun o => o.opt_params "eps") = some (some (Val.num 1e-8)) := by
  refine ⟨?_, ?_, ?_⟩
  · cases hb : build_optimizer_from_pipeline ["gradient_input", "heavyball"] kwUserBetas with
    | none =>
      have hs : (build_optimizer_from_pipeline ["gradient_input", "heavyball"]
          kwUserBetas).isSome = true := rfl
      rw [hb] at hs
      cases hs
    | some opt =>
      have hval := C1_param_precedence.1 ["gradient_input", "heavyball"] kwUserBetas opt
        "beta" (Val.num 0.5) hb (by decide) rfl
      rw [Option.map_some', hval]
  · cases hb : build_optimizer_from_pipeline ["gradient_input", "nesterov"] kwUserBetas with
    | none =>
      have hs : (build_optimizer_from_pipeline ["gradient_input", "nesterov"]
          kwUserBetas).isSome = true := rfl
      rw [hb] at hs
      cases hs
    | some opt =>
      have hval := C1_param_precedence.2.2.1 ["gradient_input", "nesterov"] kwUserBetas
        (Val.num 0.8) (Val.num 0.7) opt hb rfl ⟨"nesterov", by decide, rfl⟩
      rw [Option.map_some', hval]
  · cases hb : build_optimizer_from_pipeline ["gradient_input", "adam_scale"] kwUserBetas with
    | none =>
      have hs : (build_optimizer_from_pipeline ["gradient_input", "adam_scale"]
          kwUserBetas).isSome = true := rfl
      rw [hb] at hs
      cases hs
    | some opt =>
      have hval := C1_param_precedence.2.2.2 ["gradient_input", "adam_scale"] kwUserBetas opt
        "eps" hb rfl (by decide)
      rw [Option.map_some', hval]
      rfl
